import Mathlib

/-!
Verification of the Piper TTS VS Code extension core
(src/unnamed/part_001 = extension.ts, src/src/parse-voices.js).

The embedding below translates, function by function, the pieces of the
source that the specification's claims are about:

* the `close`-event handlers of the two subprocesses inside `readText`
  and the first-settlement semantics of the promise they settle;
* `stopCurrentPlayback` and the preemption phase of `readText`,
  with an explicit event trace of kills and spawns;
* `downloadFile`, modelled over a script of HTTP responses (one response
  consumed per GET) and an abstract destination-file state;
* the `VOICES.md` line parser of parse-voices.js;
* `getVoicePath`, `getPiperPath`, `removeVoice`, `getVoiceLabel` and the
  voice-id construction of `downloadVoice`.

Machine strings are Lean `String`s (the source operates on JS strings);
process exit codes are `Option Int` (`none` is JS `null`); the
filesystem at a single path is `Option Nat` (absent, or present with a
size); `existsSync` is an abstract `String → Bool`.
-/

/-! ### Exit-status handling in readText (extension.ts lines 535-567)

`readText` returns `new Promise((resolve, reject) => ...)` and installs
`close` handlers on both processes.  A promise settles at most once:
the first `resolve`/`reject` wins, later calls are no-ops. -/

/-- One call made by a handler: `resolve()` or `reject(new Error(msg))`. -/
inductive Settle : Type where
  | resolveS : Settle
  | rejectS : String → Settle
deriving DecidableEq

/-- Render a nullable exit code the way a JS template literal does. -/
def codeToStr : Option Int → String
  | none => "null"
  | some n => toString n

/-- Handler `piper.on('close', (code) => ...)` (lines 547-556):
`if (code !== 0 && code !== null) reject(...) else resolve()`. -/
def piperClose (code : Option Int) : Settle :=
  if code ≠ some 0 ∧ code ≠ none then
    Settle.rejectS ("Piper process exited with code: " ++ codeToStr code)
  else
    Settle.resolveS

/-- Handler `player.on('close', (code) => ...)` (lines 558-566):
`if (code === 0) resolve() else reject(...)`. -/
def playerClose (code : Option Int) : Settle :=
  if code = some 0 then
    Settle.resolveS
  else
    Settle.rejectS ("Player process exited with code: " ++ codeToStr code)

/-- Which of the two processes a `close` event came from. -/
inductive ProcSide : Type where
  | piperSide : ProcSide
  | playerSide : ProcSide
deriving DecidableEq

/-- The settlement a given process's close handler requests for a code. -/
def closeSettle : ProcSide → Option Int → Settle
  | ProcSide.piperSide, code => piperClose code
  | ProcSide.playerSide, code => playerClose code

/-- State of the promise returned by `readText`. -/
inductive Outcome : Type where
  | pendingO : Outcome
  | resolvedO : Outcome
  | rejectedO : String → Outcome
deriving DecidableEq

/-- First settlement wins; once settled, further calls are ignored. -/
def applySettle : Outcome → Settle → Outcome
  | Outcome.pendingO, Settle.resolveS => Outcome.resolvedO
  | Outcome.pendingO, Settle.rejectS m => Outcome.rejectedO m
  | o, _ => o

/-- Run a sequence of close events against the pending promise. -/
def runCloses (evs : List (ProcSide × Option Int)) : Outcome :=
  evs.foldl (fun o e => applySettle o (closeSettle e.1 e.2)) Outcome.pendingO

/-! ### removeVoice (extension.ts lines 371-417), core effect after the
user picked `voiceId`.  The filesystem is abstracted to the presence
bits of the two files the function touches. -/

/-- The built-in default voice identifier (lines 315 and 410). -/
def defaultVoice : String := "en_US-hfc_female-medium"

/-- Presence of `voices/<id>.onnx` and `voices/<id>.onnx.json`. -/
structure VoiceFs : Type where
  hasModel : Bool
  hasConfig : Bool
deriving DecidableEq

/-- Lines 394-411: delete each file when it exists (`existsSync` guard,
so a missing file is skipped, not an error), then reset the persisted
`piper-tts.voice` setting to the default when it names the removed
voice (`currentVoice === voiceId`; an unset setting compares unequal). -/
def removeVoice (voiceId : String) (fs : VoiceFs) (currentVoice : Option String) :
    VoiceFs × Option String :=
  let fs1 := if fs.hasModel then { fs with hasModel := false } else fs
  let fs2 := if fs1.hasConfig then { fs1 with hasConfig := false } else fs1
  let cfg := if currentVoice = some voiceId then some defaultVoice else currentVoice
  (fs2, cfg)

/-! ### The synthesis pipeline: stopCurrentPlayback and the spawn phase
of readText (extension.ts lines 350-369 and 465-532).

A process handle carries its OS pid and the Node `killed` flag (set
once `.kill()` was called).  The module-level state mirrors the two
globals `piperProcess`/`playerProcess`; `alive` is the set of pids of
OS processes currently running, and `nextPid` feeds fresh pids to
`spawn`.  `readText`'s observable actions are recorded as a trace. -/

/-- A spawned-process handle: pid plus Node's `killed` flag. -/
structure ProcHandle : Type where
  pid : Nat
  killed : Bool
deriving DecidableEq

/-- Module-level state around the two process globals. -/
structure TtsState : Type where
  piperProcess : Option ProcHandle
  playerProcess : Option ProcHandle
  alive : List Nat
  nextPid : Nat
deriving DecidableEq

/-- Observable process actions of `readText`. -/
inductive Ev : Type where
  | killEv : Nat → Ev
  | spawnEv : Nat → Ev
deriving DecidableEq

/-- Effect of `proc.kill()`: the OS process with this pid stops running. -/
def killPid (pid : Nat) (alive : List Nat) : List Nat :=
  alive.filter (fun a => a ≠ pid)

/-- Lines 352-356: `if (piperProcess && !piperProcess.killed) {
piperProcess.kill(); piperProcess = undefined; }`. -/
def stopPiper (s : TtsState) : TtsState × List Ev :=
  match s.piperProcess with
  | some p =>
    if !p.killed then
      ({ s with piperProcess := none, alive := killPid p.pid s.alive }, [Ev.killEv p.pid])
    else (s, [])
  | none => (s, [])

/-- Lines 358-362: the same for `playerProcess`. -/
def stopPlayer (s : TtsState) : TtsState × List Ev :=
  match s.playerProcess with
  | some p =>
    if !p.killed then
      ({ s with playerProcess := none, alive := killPid p.pid s.alive }, [Ev.killEv p.pid])
    else (s, [])
  | none => (s, [])

/-- Function `stopCurrentPlayback` (lines 350-369): stop piper, then the player.
The catch-all only fires when `.kill()` itself throws, which the pid
model does not; the normal path is the two guarded kills in order. -/
def stopCurrentPlayback (s : TtsState) : TtsState × List Ev :=
  let r1 := stopPiper s
  let r2 := stopPlayer r1.1
  (r2.1, r1.2 ++ r2.2)

/-- Values of `os.platform()` distinguished by the source. -/
inductive Platform : Type where
  | win32 : Platform
  | darwin : Platform
  | linux : Platform
  | otherP : String → Platform
deriving DecidableEq

/-- Model of `path.join` with the separator fixed to `/`. -/
def pathJoin (a b : String) : String := a ++ "/" ++ b

/-- Function `getPiperPath` (lines 263-311): platform/arch switch mapping to the
bundled executable path; unsupported platforms throw. -/
def getPiperPath (parentDir : String) (platform : Platform) (arch : String) :
    Except String String :=
  match platform with
  | Platform.win32 => Except.ok (pathJoin (pathJoin parentDir "piper/windows_amd64") "piper.exe")
  | Platform.darwin =>
    if arch = "arm64" then
      Except.ok (pathJoin (pathJoin parentDir "piper/macos_aarch64") "piper")
    else
      Except.ok (pathJoin (pathJoin parentDir "piper/macos_x64") "piper")
  | Platform.linux =>
    if arch = "arm64" then
      Except.ok (pathJoin (pathJoin parentDir "piper/linux_aarch64") "piper")
    else if arch = "arm" then
      Except.ok (pathJoin (pathJoin parentDir "piper/linux_armv7l") "piper")
    else
      Except.ok (pathJoin (pathJoin parentDir "piper/linux_x86_64") "piper")
  | Platform.otherP name => Except.error ("Unsupported platform: " ++ name)

/-- Function `getVoicePath` (lines 313-322): `config.get('voice') ||
'en_US-hfc_female-medium'` — the default replaces an unset value and,
because `||` tests JS falsiness, also an empty string. -/
def getVoicePath (parentDir : String) (configVoice : Option String) : String :=
  let selectedVoice :=
    match configVoice with
    | none => defaultVoice
    | some s => if s = "" then defaultVoice else s
  pathJoin parentDir (pathJoin "voices" (selectedVoice ++ ".onnx"))

/-- Ambient inputs of one `readText` call: extension directory,
platform, configuration, and the filesystem predicates `fs.existsSync`
and "openSync succeeds". -/
structure ReadCtx : Type where
  parentDir : String
  platform : Platform
  arch : String
  configVoice : Option String
  existsSync : String → Bool
  accessible : String → Bool

/-- Function `readText` up to and including the two spawns (lines 465-532).
Source order: reject empty text; `stopCurrentPlayback()`; resolve the
piper and voice paths (`getPiperPath` throws on an unsupported
platform); check the piper executable exists, the voice model exists,
and the voice model opens; `getPlaybackCommand` (which cannot throw
here, its platform switch accepts every platform `getPiperPath` did);
then `spawn` piper and the player and record both handles.  Returns
the thrown error or unit, the final state, and the event trace. -/
def readText (ctx : ReadCtx) (text : String) (s : TtsState) :
    Except String Unit × TtsState × List Ev :=
  if text = "" then (Except.error "No text provided", s, [])
  else
    let stopped := stopCurrentPlayback s
    let s1 := stopped.1
    let kills := stopped.2
    match getPiperPath ctx.parentDir ctx.platform ctx.arch with
    | Except.error e => (Except.error e, s1, kills)
    | Except.ok piperPath =>
      let voicePath := getVoicePath ctx.parentDir ctx.configVoice
      if !ctx.existsSync piperPath then
        (Except.error ("Piper executable not found at: " ++ piperPath), s1, kills)
      else if !ctx.existsSync voicePath then
        (Except.error ("Voice model not found at: " ++ voicePath), s1, kills)
      else if !ctx.accessible voicePath then
        (Except.error "Voice model file is not accessible", s1, kills)
      else
        let piperPid := s1.nextPid
        let playerPid := s1.nextPid + 1
        let s2 : TtsState :=
          { piperProcess := some ⟨piperPid, false⟩
            playerProcess := some ⟨playerPid, false⟩
            alive := playerPid :: piperPid :: s1.alive
            nextPid := s1.nextPid + 2 }
        (Except.ok (), s2, kills ++ [Ev.spawnEv piperPid, Ev.spawnEv playerPid])

/-- ReadCtx on Linux/x64 whose filesystem has every file except the
configured voice `aa-bb-cc`'s model; the built-in default voice's model
file is present. -/
def missingVoiceCtx : ReadCtx :=
  { parentDir := "/ext"
    platform := Platform.linux
    arch := "x64"
    configVoice := some "aa-bb-cc"
    existsSync := fun p => p ≠ "/ext/voices/aa-bb-cc.onnx"
    accessible := fun _ => true }

/-- Idle module state: no recorded handles, nothing alive. -/
def idleState : TtsState := ⟨none, none, [], 0⟩

/-! ### downloadFile (extension.ts lines 37-113).

The network is a script of HTTP responses, one consumed per GET (the
recursive redirect call consumes the next entry); the destination file
is `Option Nat` (absent / present with that many bytes).  Per response,
following the source: a 302/301 status whose `Location` header is
truthy (present and non-empty) closes the stream file and recurses on
the header value (lines 59-68); any
other non-200 status closes, unlinks and rejects with the status code
(lines 71-76); a 200 streams the body into the file and on finish
rejects without unlinking when the file size is 0, else resolves
(lines 78-98).  An exhausted script is a request error: its handler
closes, unlinks and rejects (lines 101-105).  On entry any pre-existing
destination file is unlinked (lines 47-54) and the write stream's file
is created empty (line 56), so the incoming file state is discarded. -/

/-- One HTTP response: status code, `Location` header, body size. -/
structure Resp : Type where
  statusCode : Nat
  location : Option String
  bodySize : Nat
deriving DecidableEq

/-- How the promise of `downloadFile` settles. -/
inductive DlResult : Type where
  | resolvedR : DlResult
  | rejectedR : String → DlResult
deriving DecidableEq

/-- Settled state of one `downloadFile` call: promise result, the file
at the destination path, and the URLs fetched in order. -/
structure DlOut : Type where
  result : DlResult
  file : Option Nat
  gets : List String
deriving DecidableEq

/-- Function `downloadFile(url, destination)` over a response script. -/
def downloadFile (destination : String) : String → List Resp → Option Nat → DlOut
  | url, [], _ =>
    { result := DlResult.rejectedR "request error", file := none, gets := [url] }
  | url, r :: rest, _ =>
    if (r.statusCode = 302 ∨ r.statusCode = 301) ∧ r.location.getD "" ≠ "" then
      let out := downloadFile destination (r.location.getD "") rest (some 0)
      { out with gets := url :: out.gets }
    else if r.statusCode ≠ 200 then
      { result := DlResult.rejectedR ("Failed to download file: " ++ toString r.statusCode)
        file := none, gets := [url] }
    else if r.bodySize = 0 then
      { result := DlResult.rejectedR ("Downloaded file is empty: " ++ destination)
        file := some 0, gets := [url] }
    else
      { result := DlResult.resolvedR, file := some r.bodySize, gets := [url] }

/-! ### The VOICES.md parser (src/parse-voices.js lines 12-65).

Each regex of the source is translated as a character-list matcher
returning the captured groups on success:

* language line, `^\* ([^(]+) \(`([^`]+)`/` — `"* "`, one or more
  non-`(` characters ending in a space, `(` and a backtick-quoted
  nonempty code;
* voice line, `^\s{4}\* ([^\s]+)$` — exactly four whitespace
  characters, `"* "`, one or more non-whitespace characters, end;
* quality line, `^\s{8}\* ([^\s]+) - \[\[model\]\(([^)]+)\)\]
  \[\[config\]\(([^)]+)\)\]` — eight whitespace characters, `"* "`,
  the quality, then the two bracketed URLs (not anchored at the end).

The nested JS object is an insertion-ordered association list with
in-place overwrite, which is how JS object assignment behaves. -/

/-- JS `String.prototype.trim` on the character list. -/
def trimChars (l : List Char) : List Char :=
  ((l.dropWhile Char.isWhitespace).reverse.dropWhile Char.isWhitespace).reverse

/-- JS `line.trim()`. -/
def trimS (s : String) : String := String.mk (trimChars s.data)

/-- Match a literal character sequence at the head, returning the rest. -/
def dropExact : List Char → List Char → Option (List Char)
  | [], cs => some cs
  | _ :: _, [] => none
  | p :: ps, c :: cs => if c = p then dropExact ps cs else none

/-- The language-line regex: returns (languageName, languageCode),
both trimmed, when the line matches. -/
def parseLangLine (line : List Char) : Option (String × String) :=
  match dropExact ['*', ' '] line with
  | none => none
  | some rest =>
    let beforeParen := rest.takeWhile (fun c => c ≠ '(')
    let afterParen := rest.dropWhile (fun c => c ≠ '(')
    match afterParen with
    | '(' :: '`' :: r2 =>
      if 2 ≤ beforeParen.length ∧ beforeParen.getLast? = some ' ' then
        let code := r2.takeWhile (fun c => c ≠ '`')
        let r3 := r2.dropWhile (fun c => c ≠ '`')
        if code ≠ [] ∧ r3 ≠ [] then
          some (String.mk (trimChars beforeParen.dropLast), String.mk (trimChars code))
        else none
      else none
    | _ => none

/-- The voice-line regex: returns the trimmed voice name on a match. -/
def parseVoiceLine (line : List Char) : Option String :=
  match line with
  | w1 :: w2 :: w3 :: w4 :: '*' :: ' ' :: rest =>
    if w1.isWhitespace ∧ w2.isWhitespace ∧ w3.isWhitespace ∧ w4.isWhitespace ∧
        rest ≠ [] ∧ rest.all (fun c => !c.isWhitespace) then
      some (String.mk (trimChars rest))
    else none
  | _ => none

/-- The quality-line regex: returns (quality, modelUrl, configUrl),
trimmed, when the line matches. -/
def parseQualityLine (line : List Char) : Option (String × String × String) :=
  match line with
  | w1 :: w2 :: w3 :: w4 :: w5 :: w6 :: w7 :: w8 :: '*' :: ' ' :: rest =>
    if w1.isWhitespace ∧ w2.isWhitespace ∧ w3.isWhitespace ∧ w4.isWhitespace ∧
        w5.isWhitespace ∧ w6.isWhitespace ∧ w7.isWhitespace ∧ w8.isWhitespace then
      let q := rest.takeWhile (fun c => !c.isWhitespace)
      let r1 := rest.dropWhile (fun c => !c.isWhitespace)
      if q = [] then none
      else
        match dropExact (" - [[model](".data) r1 with
        | none => none
        | some r2 =>
          let u1 := r2.takeWhile (fun c => c ≠ ')')
          let r3 := r2.dropWhile (fun c => c ≠ ')')
          if u1 = [] then none
          else
            match dropExact (")] [[config](".data) r3 with
            | none => none
            | some r4 =>
              let u2 := r4.takeWhile (fun c => c ≠ ')')
              let r5 := r4.dropWhile (fun c => c ≠ ')')
              if u2 = [] then none
              else
                match dropExact (")]".data) r5 with
                | some _ =>
                  some (String.mk (trimChars q), String.mk (trimChars u1),
                    String.mk (trimChars u2))
                | none => none
    else none
  | _ => none

/-- quality → { model, config }. -/
abbrev QualityMap := List (String × (String × String))

/-- voice → qualities. -/
abbrev VoiceMap := List (String × QualityMap)

/-- language label → voices: the parser's result object. -/
abbrev LangMap := List (String × VoiceMap)

instance decEqQualityMap : DecidableEq QualityMap := inferInstance

instance decEqVoiceMap : DecidableEq VoiceMap := inferInstance

instance decEqLangMap : DecidableEq LangMap := inferInstance

/-- JS object assignment `o[k] = v`: overwrite in place, else append. -/
def upsert {α : Type} (k : String) (v : α) : List (String × α) → List (String × α)
  | [] => [(k, v)]
  | (k', v') :: t => if k' = k then (k, v) :: t else (k', v') :: upsert k v t

/-- JS object read `o[k]`. -/
def lookupS {α : Type} (k : String) : List (String × α) → Option α
  | [] => none
  | (k', v) :: t => if k' = k then some v else lookupS k t

/-- Loop state of parse-voices.js: the result object plus the
`currentLanguage` and `currentVoice` cursors. -/
structure ParseState : Type where
  voices : LangMap
  currentLanguage : Option String
  currentVoice : Option String
deriving DecidableEq

/-- One iteration of the line loop (lines 20-65): skip blank lines and
the `# Voices` title; a language line starts a fresh language object
and resets the voice cursor; a voice line (with a language in scope)
starts a fresh voice object; a quality line (with language and voice in
scope) stores the two URLs; anything else leaves the state unchanged. -/
def parseStep (st : ParseState) (line : String) : ParseState :=
  if trimS line = "" ∨ trimS line = "# Voices" then st
  else
    match parseLangLine line.data with
    | some (name, code) =>
      let lang := name ++ " (" ++ code ++ ")"
      { voices := upsert lang [] st.voices
        currentLanguage := some lang
        currentVoice := none }
    | none =>
      match parseVoiceLine line.data with
      | some v =>
        match st.currentLanguage with
        | some lang =>
          { st with
            voices := upsert lang (upsert v [] ((lookupS lang st.voices).getD [])) st.voices
            currentVoice := some v }
        | none => st
      | none =>
        match parseQualityLine line.data with
        | some (q, modelUrl, configUrl) =>
          match st.currentLanguage, st.currentVoice with
          | some lang, some v =>
            let langMap := (lookupS lang st.voices).getD []
            let voiceMap := (lookupS v langMap).getD []
            let langMap2 := upsert v (upsert q (modelUrl, configUrl) voiceMap) langMap
            { st with voices := upsert lang langMap2 st.voices }
          | _, _ => st
        | none => st

/-- The whole document parse: fold the loop over the lines. -/
def parseVoicesDoc (lines : List String) : LangMap :=
  (lines.foldl parseStep ⟨[], none, none⟩).voices

/-! ### Voice identifier construction (extension.ts line 174) and
getVoiceLabel (lines 27-34). -/

/-- Voice id built by `downloadVoice` (line 174):
`${languageCode}-${selectedVoice}-${selectedSize}`. -/
def mkVoiceId (languageCode selectedVoice selectedSize : String) : String :=
  languageCode ++ "-" ++ selectedVoice ++ "-" ++ selectedSize

/-- JS `String.prototype.split` on a one-character separator. -/
def splitOnChar (sep : Char) : List Char → List (List Char)
  | [] => [[]]
  | c :: cs =>
    if c = sep then [] :: splitOnChar sep cs
    else
      match splitOnChar sep cs with
      | [] => [[c]]
      | h :: t => (c :: h) :: t

/-- JS `String.prototype.replace` with a plain string pattern: first
occurrence only. -/
def replaceFirstChar (a b : Char) : List Char → List Char
  | [] => []
  | c :: cs => if c = a then b :: cs else c :: replaceFirstChar a b cs

/-- JS `String.prototype.replace` with a `/…/g` pattern: all
occurrences. -/
def replaceAllChar (a b : Char) (l : List Char) : List Char :=
  l.map fun c => if c = a then b else c

/-- Function `getVoiceLabel` (lines 27-34): `voice.split('-')`, then
`parts[0].replace('_', ' ')`, `parts[1].replace(/_/g, ' ')` and
`parts[2] || ''` interpolated as `` `${locale} - ${name} (${quality})` ``.
When the id has no `-`, `parts[1]` is `undefined` and
`parts[1].replace` throws: modelled as `none`. -/
def getVoiceLabel (voice : String) : Option String :=
  match splitOnChar '-' voice.data with
  | p0 :: p1 :: rest =>
    let locale := String.mk (replaceFirstChar '_' ' ' p0)
    let name := String.mk (replaceAllChar '_' ' ' p1)
    let quality :=
      match rest with
      | p2 :: _ => String.mk p2
      | [] => ""
    some (locale ++ " - " ++ name ++ " (" ++ quality ++ ")")
  | _ => none

/-- The `voices.map(voice => ({ label: getVoiceLabel(voice), … }))`
step shared by `selectVoice` (lines 245-248) and `removeVoice`
(lines 379-382): one thrown label aborts the whole listing. -/
def buildVoiceItems : List String → Option (List (String × String))
  | [] => some []
  | v :: rest =>
    match getVoiceLabel v with
    | none => none
    | some l =>
      match buildVoiceItems rest with
      | none => none
      | some items => some ((l, v) :: items)

/-- A state with a live prior session recorded: pids 5 and 6 running. -/
def demoSession : TtsState := ⟨some ⟨5, false⟩, some ⟨6, false⟩, [5, 6], 7⟩

/-! ### Helper lemmas, claim theorems, counterexamples and witnesses -/

/-! ### Theorems for C1 -/

/-- C1 counterexample: the claim says a `null` exit status from *either*
process resolves the promise, but the player's close handler only
resolves on status 0: a session whose single close event is the player
closing with `null` leaves the promise rejected, not resolved. -/
theorem c1_player_null_rejects :
    runCloses [(ProcSide.playerSide, none)] =
      Outcome.rejectedO "Player process exited with code: null" ∧
    runCloses [(ProcSide.playerSide, none)] ≠ Outcome.resolvedO := by
  constructor
  · rfl
  · intro h
    simp [runCloses, closeSettle, playerClose, applySettle] at h

/-- C1 amended: only the piper close handler reclassifies `null` as
success; the piper handler resolves exactly on `null` or `0`, and the
player handler resolves exactly on `0` (so a `null` player status is
rejected). -/
theorem c1_close_handlers :
    (∀ code : Option Int,
      piperClose code = Settle.resolveS ↔ (code = none ∨ code = some 0)) ∧
    (∀ code : Option Int,
      playerClose code = Settle.resolveS ↔ code = some 0) := by
  constructor
  · intro code
    rcases code with _ | c
    · simp [piperClose]
    · by_cases hc : c = 0 <;> simp [piperClose, hc]
  · intro code
    rcases code with _ | c
    · simp [playerClose]
    · by_cases hc : c = 0 <;> simp [playerClose, hc]

/-! ### Theorem for C8 -/

/-- C8: removing a voice always leaves both of its files absent (files
present are deleted, absent ones are skipped without error), and the
persisted selection is reset to the built-in default exactly when it
named the removed voice, otherwise it is unchanged. -/
theorem c8_removeVoice_spec :
    ∀ (voiceId : String) (fs : VoiceFs) (currentVoice : Option String),
      (removeVoice voiceId fs currentVoice).1 = ⟨false, false⟩ ∧
      (removeVoice voiceId fs currentVoice).2 =
        (if currentVoice = some voiceId then some defaultVoice else currentVoice) := by
  intro voiceId fs currentVoice
  rcases fs with ⟨hm, hc⟩
  cases hm <;> cases hc <;> simp [removeVoice]

theorem stopPiper_playerProcess (s : TtsState) :
    (stopPiper s).1.playerProcess = s.playerProcess := by
  cases hp : s.piperProcess with
  | none => simp [stopPiper, hp]
  | some p => by_cases hk : p.killed <;> simp [stopPiper, hp, hk]

theorem stopPiper_nextPid (s : TtsState) : (stopPiper s).1.nextPid = s.nextPid := by
  cases hp : s.piperProcess with
  | none => simp [stopPiper, hp]
  | some p => by_cases hk : p.killed <;> simp [stopPiper, hp, hk]

theorem stopPlayer_nextPid (s : TtsState) : (stopPlayer s).1.nextPid = s.nextPid := by
  cases hp : s.playerProcess with
  | none => simp [stopPlayer, hp]
  | some p => by_cases hk : p.killed <;> simp [stopPlayer, hp, hk]

theorem stopCurrentPlayback_nextPid (s : TtsState) :
    (stopCurrentPlayback s).1.nextPid = s.nextPid := by
  unfold stopCurrentPlayback
  simp [stopPlayer_nextPid, stopPiper_nextPid]

theorem stopPiper_events (s : TtsState) :
    ∀ e ∈ (stopPiper s).2, ∃ p, e = Ev.killEv p := by
  cases hp : s.piperProcess with
  | none => simp [stopPiper, hp]
  | some p => by_cases hk : p.killed <;> simp [stopPiper, hp, hk]

theorem stopPlayer_events (s : TtsState) :
    ∀ e ∈ (stopPlayer s).2, ∃ p, e = Ev.killEv p := by
  cases hp : s.playerProcess with
  | none => simp [stopPlayer, hp]
  | some p => by_cases hk : p.killed <;> simp [stopPlayer, hp, hk]

theorem stop_events_kills (s : TtsState) :
    ∀ e ∈ (stopCurrentPlayback s).2, ∃ p, e = Ev.killEv p := by
  unfold stopCurrentPlayback
  intro e he
  simp only [List.mem_append] at he
  rcases he with he | he
  · exact stopPiper_events s e he
  · exact stopPlayer_events _ e he

theorem stop_kills_piper (s : TtsState) (p : Nat)
    (h : s.piperProcess = some ⟨p, false⟩) :
    Ev.killEv p ∈ (stopCurrentPlayback s).2 := by
  unfold stopCurrentPlayback
  simp [stopPiper, h]

theorem stop_kills_player (s : TtsState) (p : Nat)
    (h : s.playerProcess = some ⟨p, false⟩) :
    Ev.killEv p ∈ (stopCurrentPlayback s).2 := by
  unfold stopCurrentPlayback
  have hp : (stopPiper s).1.playerProcess = some ⟨p, false⟩ := by
    rw [stopPiper_playerProcess]; exact h
  simp [stopPlayer, hp]

theorem stop_alive_nil (s : TtsState)
    (h : ∀ a ∈ s.alive, s.piperProcess = some ⟨a, false⟩ ∨ s.playerProcess = some ⟨a, false⟩) :
    (stopCurrentPlayback s).1.alive = [] := by
  rw [List.eq_nil_iff_forall_not_mem]
  intro a ha
  rcases s with ⟨pp, qq, alive, np⟩
  rcases pp with _ | ⟨ppid, pk⟩ <;> rcases qq with _ | ⟨qpid, qk⟩
  · simp_all [stopCurrentPlayback, stopPiper, stopPlayer, killPid]
  · cases qk <;> simp_all [stopCurrentPlayback, stopPiper, stopPlayer, killPid]
    all_goals (obtain ⟨ha1, ha2⟩ := ha; have h2 := h a ha1; omega)
  · cases pk <;> simp_all [stopCurrentPlayback, stopPiper, stopPlayer, killPid]
    all_goals (obtain ⟨ha1, ha2⟩ := ha; have h2 := h a ha1; omega)
  · cases pk <;> cases qk <;>
      simp_all [stopCurrentPlayback, stopPiper, stopPlayer, killPid]
    all_goals (obtain ⟨ha1, ha2⟩ := ha; have h2 := h a ha1; omega)

theorem readText_cases (ctx : ReadCtx) (text : String) (s : TtsState) (ht : text ≠ "") :
    (∃ e, readText ctx text s =
      (Except.error e, (stopCurrentPlayback s).1, (stopCurrentPlayback s).2)) ∨
    readText ctx text s =
      (Except.ok (),
        { piperProcess := some ⟨(stopCurrentPlayback s).1.nextPid, false⟩
          playerProcess := some ⟨(stopCurrentPlayback s).1.nextPid + 1, false⟩
          alive := ((stopCurrentPlayback s).1.nextPid + 1) ::
            (stopCurrentPlayback s).1.nextPid :: (stopCurrentPlayback s).1.alive
          nextPid := (stopCurrentPlayback s).1.nextPid + 2 },
        (stopCurrentPlayback s).2 ++
          [Ev.spawnEv (stopCurrentPlayback s).1.nextPid,
           Ev.spawnEv ((stopCurrentPlayback s).1.nextPid + 1)]) := by
  unfold readText
  rw [if_neg ht]
  rcases hg : getPiperPath ctx.parentDir ctx.platform ctx.arch with e | pp
  · exact Or.inl ⟨e, rfl⟩
  · by_cases h1 : ctx.existsSync pp
    · by_cases h2 : ctx.existsSync (getVoicePath ctx.parentDir ctx.configVoice)
      · by_cases h3 : ctx.accessible (getVoicePath ctx.parentDir ctx.configVoice)
        · right; simp [h1, h2, h3]
        · exact Or.inl ⟨"Voice model file is not accessible", by simp [h1, h2, h3]⟩
      · exact Or.inl ⟨"Voice model not found at: " ++
          getVoicePath ctx.parentDir ctx.configVoice, by simp [h1, h2]⟩
    · exact Or.inl ⟨"Piper executable not found at: " ++ pp, by simp [h1]⟩

/-- C2: under the invariant that every live pid belongs to the recorded
(un-killed) handles of the current session and pids are below the spawn
counter, any `readText` call emits all its kills before any spawn,
kills both recorded live handles of the prior session, and any call
that spawns leaves none of the previously live pids running; a
successful call leaves exactly its own fresh pair live. -/
theorem c2_readText_preempts :
    ∀ (ctx : ReadCtx) (text : String) (s : TtsState),
      (∀ a ∈ s.alive, s.piperProcess = some ⟨a, false⟩ ∨ s.playerProcess = some ⟨a, false⟩) →
      (∀ a ∈ s.alive, a < s.nextPid) →
      (∃ ks ss, (readText ctx text s).2.2 = ks ++ ss ∧
        (∀ e ∈ ks, ∃ p, e = Ev.killEv p) ∧ (∀ e ∈ ss, ∃ p, e = Ev.spawnEv p)) ∧
      (∀ p, s.piperProcess = some ⟨p, false⟩ → text ≠ "" →
        Ev.killEv p ∈ (readText ctx text s).2.2) ∧
      (∀ p, s.playerProcess = some ⟨p, false⟩ → text ≠ "" →
        Ev.killEv p ∈ (readText ctx text s).2.2) ∧
      (∀ p, Ev.spawnEv p ∈ (readText ctx text s).2.2 →
        ∀ a ∈ s.alive, a ∉ (readText ctx text s).2.1.alive) ∧
      ((readText ctx text s).1 = Except.ok () →
        ∃ n, s.nextPid ≤ n ∧ (readText ctx text s).2.1.alive = [n + 1, n]) := by
  intro ctx text s h1 h2
  by_cases ht : text = ""
  · subst ht
    refine ⟨⟨[], [], by simp [readText], by simp, by simp⟩, ?_, ?_, ?_, ?_⟩
    · intro p _ hne; exact absurd rfl hne
    · intro p _ hne; exact absurd rfl hne
    · intro p hp; simp [readText] at hp
    · intro hok; simp [readText] at hok
  · have hnil := stop_alive_nil s h1
    have hnp := stopCurrentPlayback_nextPid s
    rcases readText_cases ctx text s ht with ⟨e, heq⟩ | heq
    · rw [heq]
      refine ⟨⟨(stopCurrentPlayback s).2, [], by simp, stop_events_kills s, by simp⟩,
        ?_, ?_, ?_, ?_⟩
      · intro p hp _; exact stop_kills_piper s p hp
      · intro p hp _; exact stop_kills_player s p hp
      · intro p hp
        rcases stop_events_kills s _ hp with ⟨q, hq⟩
        simp at hq
      · intro hok; simp at hok
    · rw [heq]
      refine ⟨⟨(stopCurrentPlayback s).2,
        [Ev.spawnEv (stopCurrentPlayback s).1.nextPid,
         Ev.spawnEv ((stopCurrentPlayback s).1.nextPid + 1)],
        by simp, stop_events_kills s, by simp⟩, ?_, ?_, ?_, ?_⟩
      · intro p hp _
        exact List.mem_append_left _ (stop_kills_piper s p hp)
      · intro p hp _
        exact List.mem_append_left _ (stop_kills_player s p hp)
      · intro p _ a ha
        have hlt := h2 a ha
        simp [hnil, hnp]
        omega
      · intro _
        exact ⟨s.nextPid, le_refl _, by simp [hnil, hnp]⟩

/-- C5: with a supported platform, when the piper executable is missing
the request fails with the executable-not-found error, and when the
selected voice's model file is missing it fails with the
voice-model-not-found error; in both cases the trace contains no spawn
event (the only events are the kills of the preempted session). -/
theorem c5_missing_files_no_spawn :
    ∀ (ctx : ReadCtx) (text : String) (s : TtsState) (piperPath : String),
      text ≠ "" →
      getPiperPath ctx.parentDir ctx.platform ctx.arch = Except.ok piperPath →
      (ctx.existsSync piperPath = false →
        (readText ctx text s).1 =
          Except.error ("Piper executable not found at: " ++ piperPath) ∧
        ∀ p, Ev.spawnEv p ∉ (readText ctx text s).2.2) ∧
      (ctx.existsSync piperPath = true →
        ctx.existsSync (getVoicePath ctx.parentDir ctx.configVoice) = false →
        (readText ctx text s).1 =
          Except.error ("Voice model not found at: " ++
            getVoicePath ctx.parentDir ctx.configVoice) ∧
        ∀ p, Ev.spawnEv p ∉ (readText ctx text s).2.2) := by
  intro ctx text s piperPath ht hg
  constructor
  · intro hpe
    have heq : readText ctx text s =
        (Except.error ("Piper executable not found at: " ++ piperPath),
          (stopCurrentPlayback s).1, (stopCurrentPlayback s).2) := by
      unfold readText
      rw [if_neg ht, hg]
      simp [hpe]
    rw [heq]
    refine ⟨rfl, ?_⟩
    intro p hp
    rcases stop_events_kills s _ hp with ⟨q, hq⟩
    simp at hq
  · intro hpe hve
    have heq : readText ctx text s =
        (Except.error ("Voice model not found at: " ++
            getVoicePath ctx.parentDir ctx.configVoice),
          (stopCurrentPlayback s).1, (stopCurrentPlayback s).2) := by
      unfold readText
      rw [if_neg ht, hg]
      simp [hpe, hve]
    rw [heq]
    refine ⟨rfl, ?_⟩
    intro p hp
    rcases stop_events_kills s _ hp with ⟨q, hq⟩
    simp at hq

/-- C7 counterexample: the configured voice is set but its model file is
absent while the default voice's model file exists; the claim says the
resolution then falls back to the built-in identifier, but `readText`
fails with the configured voice's not-found error instead of reading
the available default model. -/
theorem c7_no_fallback_counterexample :
    (readText missingVoiceCtx "hello" idleState).1 =
      Except.error "Voice model not found at: /ext/voices/aa-bb-cc.onnx" ∧
    missingVoiceCtx.existsSync (getVoicePath missingVoiceCtx.parentDir none) = true ∧
    (readText missingVoiceCtx "hello" idleState).1 ≠ Except.ok () := by
  have h1 : (readText missingVoiceCtx "hello" idleState).1 =
      Except.error "Voice model not found at: /ext/voices/aa-bb-cc.onnx" := rfl
  refine ⟨h1, rfl, ?_⟩
  rw [h1]
  simp

/-- C7 amended: the configuration value is read per request and the
built-in default identifier is used exactly when the value is unset or
empty (`||` on a JS falsy value); a non-empty configured identifier is
used verbatim, and when its model file is absent on disk the request
fails rather than falling back to the default. -/
theorem c7_voice_resolution :
    (∀ parentDir : String, getVoicePath parentDir none =
      pathJoin parentDir (pathJoin "voices" (defaultVoice ++ ".onnx"))) ∧
    (∀ parentDir : String, getVoicePath parentDir (some "") =
      pathJoin parentDir (pathJoin "voices" (defaultVoice ++ ".onnx"))) ∧
    (∀ parentDir v : String, v ≠ "" →
      getVoicePath parentDir (some v) =
        pathJoin parentDir (pathJoin "voices" (v ++ ".onnx"))) ∧
    (∀ (ctx : ReadCtx) (text : String) (s : TtsState),
      ctx.existsSync (getVoicePath ctx.parentDir ctx.configVoice) = false →
      (readText ctx text s).1 ≠ Except.ok ()) := by
  refine ⟨fun parentDir => rfl, fun parentDir => rfl, ?_, ?_⟩
  · intro parentDir v hv
    simp [getVoicePath, hv]
  · intro ctx text s hve hok
    by_cases ht : text = ""
    · rw [readText, if_pos ht] at hok
      simp at hok
    · rw [readText, if_neg ht] at hok
      rcases hg : getPiperPath ctx.parentDir ctx.platform ctx.arch with e | pp <;>
        rw [hg] at hok
      · simp at hok
      · by_cases h1 : ctx.existsSync pp <;> simp [h1, hve] at hok

/-- C3 counterexample: a 200 response whose body is empty settles the
promise rejected, yet the zero-byte destination file is left on disk
(the empty-download branch, lines 85-91, does not unlink), so a failure
path ends with a file at the destination. -/
theorem c3_empty_download_leaves_file :
    (downloadFile "/v/f.onnx" "http://u" [⟨200, none, 0⟩] (some 7)).result =
      DlResult.rejectedR "Downloaded file is empty: /v/f.onnx" ∧
    (downloadFile "/v/f.onnx" "http://u" [⟨200, none, 0⟩] (some 7)).file = some 0 := by
  exact ⟨rfl, rfl⟩

/-- C3 amended: when `downloadFile` settles, the destination holds a
complete non-empty file on success; on failure it holds either no file
or the zero-byte file of a failed empty-download verification; and the
settled state never depends on what was at the destination before the
call (the pre-existing file is always removed first, so no stale
content survives). -/
theorem c3_download_file_state :
    ∀ (destination : String) (script : List Resp) (url : String) (fs₀ : Option Nat),
      ((downloadFile destination url script fs₀).result = DlResult.resolvedR →
        ∃ n, 0 < n ∧ (downloadFile destination url script fs₀).file = some n) ∧
      (∀ msg, (downloadFile destination url script fs₀).result = DlResult.rejectedR msg →
        (downloadFile destination url script fs₀).file = none ∨
        (downloadFile destination url script fs₀).file = some 0) ∧
      (∀ fs₁, downloadFile destination url script fs₀ = downloadFile destination url script fs₁) := by
  intro destination script
  induction script with
  | nil =>
    intro url fs₀
    refine ⟨?_, ?_, ?_⟩ <;> simp [downloadFile]
  | cons r rest ih =>
    intro url fs₀
    by_cases hred : (r.statusCode = 302 ∨ r.statusCode = 301) ∧ r.location.getD "" ≠ ""
    · simp only [downloadFile, if_pos hred]
      refine ⟨?_, ?_, ?_⟩
      · intro h
        rcases (ih (r.location.getD "") (some 0)).1 h with ⟨n, hn, hf⟩
        exact ⟨n, hn, hf⟩
      · intro msg h
        exact (ih (r.location.getD "") (some 0)).2.1 msg h
      · intro fs₁; trivial
    · simp only [downloadFile, if_neg hred]
      by_cases hs : r.statusCode = 200
      · by_cases hb : r.bodySize = 0
        · simp only [hs, hb]
          refine ⟨?_, ?_, ?_⟩ <;> simp
        · simp only [hs]
          refine ⟨?_, ?_, ?_⟩ <;> simp [hb]
          omega
      · simp only [if_pos hs]
        refine ⟨?_, ?_, ?_⟩ <;> simp [hs]

/-- C4 counterexample: a response with redirect status 307 and a
`Location` header is not retried — only 302 and 301 enter the redirect
branch — so the call rejects with the status code and never issues a
GET against the Location header. -/
theorem c4_307_not_followed :
    downloadFile "/d" "http://u" [⟨307, some "http://next", 5⟩, ⟨200, none, 5⟩] none =
      { result := DlResult.rejectedR "Failed to download file: 307"
        file := none, gets := ["http://u"] } ∧
    "http://next" ∉ (downloadFile "/d" "http://u"
      [⟨307, some "http://next", 5⟩, ⟨200, none, 5⟩] none).gets := by
  refine ⟨rfl, ?_⟩
  intro hmem
  rw [show (downloadFile "/d" "http://u"
      [⟨307, some "http://next", 5⟩, ⟨200, none, 5⟩] none).gets = ["http://u"] from rfl] at hmem
  simp at hmem

/-- The redirect branch of `downloadFile` (lines 59-68): a 302/301
response with a `Location` re-issues the GET against the header. -/
theorem downloadFile_redirect (d url loc : String) (code b : Nat) (rest : List Resp)
    (fs : Option Nat) (hcode : code = 302 ∨ code = 301) (hloc : loc ≠ "") :
    downloadFile d url (⟨code, some loc, b⟩ :: rest) fs =
      { downloadFile d loc rest (some 0) with
        gets := url :: (downloadFile d loc rest (some 0)).gets } := by
  have hc : ((⟨code, some loc, b⟩ : Resp).statusCode = 302 ∨
      (⟨code, some loc, b⟩ : Resp).statusCode = 301) ∧
      ((⟨code, some loc, b⟩ : Resp).location.getD "" ≠ "") := ⟨hcode, hloc⟩
  simp only [downloadFile, if_pos hc]
  rfl

/-- C4 amended: a response with status 302 or 301 carrying a `Location`
header is retried by re-issuing the GET against that header,
recursively with no redirect-count cap (a redirect chain of any length
is followed to its end); any other non-200 status — including other
redirect statuses and a 301/302 without a `Location` header — rejects
with the download-failed error carrying the status code; and a
downloaded file of size zero rejects with the empty-download error. -/
theorem c4_download_protocol :
    (∀ (d url loc : String) (code b : Nat) (rest : List Resp) (fs : Option Nat),
      code = 302 ∨ code = 301 → loc ≠ "" →
      downloadFile d url (⟨code, some loc, b⟩ :: rest) fs =
        { downloadFile d loc rest (some 0) with
          gets := url :: (downloadFile d loc rest (some 0)).gets }) ∧
    (∀ (d url : String) (code b : Nat) (loc : Option String) (rest : List Resp)
        (fs : Option Nat),
      code ≠ 200 → (¬(code = 302 ∨ code = 301) ∨ loc.getD "" = "") →
      downloadFile d url (⟨code, loc, b⟩ :: rest) fs =
        { result := DlResult.rejectedR ("Failed to download file: " ++ toString code)
          file := none, gets := [url] }) ∧
    (∀ (d url : String) (loc : Option String) (rest : List Resp) (fs : Option Nat),
      downloadFile d url (⟨200, loc, 0⟩ :: rest) fs =
        { result := DlResult.rejectedR ("Downloaded file is empty: " ++ d)
          file := some 0, gets := [url] }) ∧
    (∀ (d url : String) (locs : List String) (k : Nat) (fs : Option Nat),
      (∀ l ∈ locs, l ≠ "") →
      downloadFile d url
          ((locs.map fun l => (⟨302, some l, 0⟩ : Resp)) ++ [⟨200, none, k + 1⟩]) fs =
        { result := DlResult.resolvedR, file := some (k + 1), gets := url :: locs }) := by
  refine ⟨?_, ?_, ?_, ?_⟩
  · intro d url loc code b rest fs hcode hloc
    exact downloadFile_redirect d url loc code b rest fs hcode hloc
  · intro d url code b loc rest fs h200 hnored
    have hc : ¬(((⟨code, loc, b⟩ : Resp).statusCode = 302 ∨
        (⟨code, loc, b⟩ : Resp).statusCode = 301) ∧
        ((⟨code, loc, b⟩ : Resp).location.getD "" ≠ "")) := by
      rcases hnored with h | h
      · exact fun hh => h hh.1
      · exact fun hh => hh.2 h
    simp only [downloadFile, if_neg hc]
    simp [h200]
  · intro d url loc rest fs
    have hc : ¬(((⟨200, loc, 0⟩ : Resp).statusCode = 302 ∨
        (⟨200, loc, 0⟩ : Resp).statusCode = 301) ∧
        ((⟨200, loc, 0⟩ : Resp).location.getD "" ≠ "")) := by
      intro hh
      rcases hh.1 with h | h <;> simp at h
    simp only [downloadFile, if_neg hc]
    simp
  · intro d url locs
    induction locs generalizing url with
    | nil =>
      intro k fs _
      have hc : ¬(((⟨200, none, k + 1⟩ : Resp).statusCode = 302 ∨
          (⟨200, none, k + 1⟩ : Resp).statusCode = 301) ∧
          ((⟨200, none, k + 1⟩ : Resp).location.getD "" ≠ "")) := by
        intro hh
        rcases hh.1 with h | h <;> simp at h
      simp only [List.map_nil, List.nil_append, downloadFile, if_neg hc]
      simp
    | cons l ls ih =>
      intro k fs hlocs
      have hl : l ≠ "" := hlocs l (List.mem_cons_self l ls)
      have hls : ∀ x ∈ ls, x ≠ "" := fun x hx => hlocs x (List.mem_cons_of_mem l hx)
      rw [List.map_cons, List.cons_append,
        downloadFile_redirect d url l 302 0 _ fs (Or.inl rfl) hl, ih l k (some 0) hls]

/-- C6 counterexample: on the claim's document — language line
`* English (en_US)` with a bare parenthesized code — the parser
produces the empty mapping, not the claimed one: the language regex
only matches a backtick-quoted code, so no language is ever in scope
and the indented lines are dropped. -/
theorem c6_parse_counterexample :
    parseVoicesDoc ["* English (en_US)", "    * amy",
      "        * medium - [[model](URL1)] [[config](URL2)]"] = [] ∧
    ([] : LangMap) ≠
      [("English (en_US)", [("amy", [("medium", ("URL1", "URL2"))])])] := by
  exact ⟨by decide, by decide⟩

/-- C6 amended: with the language code written backtick-quoted, as in
the real VOICES.md — ``* English (`en_US`)`` — the three-line document
parses to exactly the claimed mapping; and any line matching none of
the three shapes (which includes every blank line) leaves the parser
state unchanged. -/
theorem c6_parse_example :
    parseVoicesDoc ["* English (`en_US`)", "    * amy",
        "        * medium - [[model](URL1)] [[config](URL2)]"] =
      [("English (en_US)", [("amy", [("medium", ("URL1", "URL2"))])])] ∧
    (∀ (st : ParseState) (line : String),
      parseLangLine line.data = none → parseVoiceLine line.data = none →
      parseQualityLine line.data = none → parseStep st line = st) := by
  refine ⟨by decide, ?_⟩
  intro st line h1 h2 h3
  by_cases hc : trimS line = "" ∨ trimS line = "# Voices"
  · rw [parseStep, if_pos hc]
  · rw [parseStep, if_neg hc]
    simp [h1, h2, h3]

theorem string_data_inj {s t : String} (h : s.data = t.data) : s = t := by
  cases s; cases t; simp_all

/-- Splitting at a separator absent from both prefixes is unambiguous. -/
theorem sep_append_inj : ∀ (a a' b b' : List Char), '-' ∉ a → '-' ∉ a' →
    a ++ '-' :: b = a' ++ '-' :: b' → a = a' ∧ b = b' := by
  intro a
  induction a with
  | nil =>
    intro a' b b' _ ha' h
    cases a' with
    | nil => simpa using h
    | cons c t =>
      simp only [List.nil_append, List.cons_append, List.cons.injEq] at h
      exfalso
      apply ha'
      rw [h.1]
      exact List.mem_cons_self c t
  | cons c t ih =>
    intro a' b b' ha ha' h
    cases a' with
    | nil =>
      simp only [List.cons_append, List.nil_append, List.cons.injEq] at h
      exfalso
      apply ha
      rw [← h.1]
      exact List.mem_cons_self _ _
    | cons c' t' =>
      simp only [List.cons_append, List.cons.injEq] at h
      obtain ⟨hc, ht⟩ := h
      have ha2 : '-' ∉ t := fun hm => ha (List.mem_cons_of_mem _ hm)
      have ha2' : '-' ∉ t' := fun hm => ha' (List.mem_cons_of_mem _ hm)
      obtain ⟨h1, h2⟩ := ih t' b b' ha2 ha2' ht
      exact ⟨by rw [hc, h1], h2⟩

/-- C9: voice-id construction is injective on tuples whose components
avoid the `-` separator. -/
theorem c9_voice_id_injective :
    ∀ l v q l' v' q' : String,
      '-' ∉ l.data → '-' ∉ v.data → '-' ∉ q.data →
      '-' ∉ l'.data → '-' ∉ v'.data → '-' ∉ q'.data →
      mkVoiceId l v q = mkVoiceId l' v' q' → l = l' ∧ v = v' ∧ q = q' := by
  intro l v q l' v' q' hl hv hq hl' hv' hq' h
  have hdata : l.data ++ '-' :: (v.data ++ '-' :: q.data) =
      l'.data ++ '-' :: (v'.data ++ '-' :: q'.data) := by
    have h2 := congrArg String.data h
    simpa [mkVoiceId, String.data_append, List.append_assoc] using h2
  obtain ⟨h1, hrest⟩ := sep_append_inj l.data l'.data _ _ hl hl' hdata
  obtain ⟨h2, h3⟩ := sep_append_inj v.data v'.data _ _ hv hv' hrest
  exact ⟨string_data_inj h1, string_data_inj h2, string_data_inj h3⟩

theorem splitOnChar_ne_nil (sep : Char) (l : List Char) : splitOnChar sep l ≠ [] := by
  induction l with
  | nil => simp [splitOnChar]
  | cons c cs ih =>
    by_cases hc : c = sep
    · simp [splitOnChar, hc]
    · simp only [splitOnChar, if_neg hc]
      cases h : splitOnChar sep cs with
      | nil => simp
      | cons a t => simp

theorem splitOnChar_two_le (sep : Char) (l : List Char) :
    sep ∈ l ↔ 2 ≤ (splitOnChar sep l).length := by
  induction l with
  | nil => simp [splitOnChar]
  | cons c cs ih =>
    by_cases hc : c = sep
    · constructor
      · intro _
        simp only [splitOnChar, if_pos hc, List.length_cons]
        have hp : 0 < (splitOnChar sep cs).length :=
          List.length_pos.mpr (splitOnChar_ne_nil sep cs)
        omega
      · intro _
        simp [hc]
    · simp only [splitOnChar, if_neg hc]
      cases h : splitOnChar sep cs with
      | nil => exact absurd h (splitOnChar_ne_nil sep cs)
      | cons a t =>
        rw [h] at ih
        constructor
        · intro hm
          rcases List.mem_cons.mp hm with he | hm2
          · exact absurd he.symm hc
          · simpa using ih.mp hm2
        · intro hlen
          refine List.mem_cons_of_mem _ (ih.mpr ?_)
          simpa using hlen

/-- C10: `getVoiceLabel` is defined exactly on identifiers containing a
`-` (for the others `parts[1].replace` throws), and the voice-listing
step of `selectVoice`/`removeVoice` fails as soon as one `.onnx`
basename in the voices directory has no `-`. -/
theorem c10_label_listing :
    (∀ v : String, '-' ∈ v.data → (getVoiceLabel v).isSome = true) ∧
    (∀ v : String, '-' ∉ v.data → getVoiceLabel v = none) ∧
    (∀ vs : List String, (∃ v ∈ vs, '-' ∉ v.data) → buildVoiceItems vs = none) := by
  have hsome : ∀ v : String, '-' ∈ v.data → (getVoiceLabel v).isSome = true := by
    intro v hv
    have h2 := (splitOnChar_two_le '-' v.data).mp hv
    unfold getVoiceLabel
    cases h : splitOnChar '-' v.data with
    | nil => exact absurd h (splitOnChar_ne_nil _ _)
    | cons p0 r =>
      cases r with
      | nil => rw [h] at h2; simp at h2
      | cons p1 rest => simp
  have hnone : ∀ v : String, '-' ∉ v.data → getVoiceLabel v = none := by
    intro v hv
    have h2 : ¬2 ≤ (splitOnChar '-' v.data).length :=
      fun hl => hv ((splitOnChar_two_le _ _).mpr hl)
    unfold getVoiceLabel
    cases h : splitOnChar '-' v.data with
    | nil => simp
    | cons p0 r =>
      cases r with
      | nil => simp
      | cons p1 rest => rw [h] at h2; simp at h2
  refine ⟨hsome, hnone, ?_⟩
  intro vs
  induction vs with
  | nil => intro h; simp at h
  | cons w ws ih =>
    intro hx
    obtain ⟨v, hvmem, hvd⟩ := hx
    rcases List.mem_cons.mp hvmem with rfl | hmem
    · simp [buildVoiceItems, hnone v hvd]
    · have htail : buildVoiceItems ws = none := ih ⟨v, hmem, hvd⟩
      cases hw : getVoiceLabel w <;> simp [buildVoiceItems, hw, htail]

theorem c2_readText_preempts_witness :
    (∀ a ∈ demoSession.alive, demoSession.piperProcess = some ⟨a, false⟩ ∨
      demoSession.playerProcess = some ⟨a, false⟩) ∧
    (∀ a ∈ demoSession.alive, a < demoSession.nextPid) ∧
    ((∃ ks ss, (readText missingVoiceCtx "hi" demoSession).2.2 = ks ++ ss ∧
        (∀ e ∈ ks, ∃ p, e = Ev.killEv p) ∧ (∀ e ∈ ss, ∃ p, e = Ev.spawnEv p)) ∧
      (∀ p, demoSession.piperProcess = some ⟨p, false⟩ → "hi" ≠ "" →
        Ev.killEv p ∈ (readText missingVoiceCtx "hi" demoSession).2.2) ∧
      (∀ p, demoSession.playerProcess = some ⟨p, false⟩ → "hi" ≠ "" →
        Ev.killEv p ∈ (readText missingVoiceCtx "hi" demoSession).2.2) ∧
      (∀ p, Ev.spawnEv p ∈ (readText missingVoiceCtx "hi" demoSession).2.2 →
        ∀ a ∈ demoSession.alive,
          a ∉ (readText missingVoiceCtx "hi" demoSession).2.1.alive) ∧
      ((readText missingVoiceCtx "hi" demoSession).1 = Except.ok () →
        ∃ n, demoSession.nextPid ≤ n ∧
          (readText missingVoiceCtx "hi" demoSession).2.1.alive = [n + 1, n])) :=
  ⟨by decide, by decide,
    c2_readText_preempts missingVoiceCtx "hi" demoSession (by decide) (by decide)⟩

theorem c5_missing_files_no_spawn_witness :
    ("hello" : String) ≠ "" ∧
    getPiperPath missingVoiceCtx.parentDir missingVoiceCtx.platform missingVoiceCtx.arch =
      Except.ok "/ext/piper/linux_x86_64/piper" ∧
    missingVoiceCtx.existsSync "/ext/piper/linux_x86_64/piper" = true ∧
    missingVoiceCtx.existsSync
      (getVoicePath missingVoiceCtx.parentDir missingVoiceCtx.configVoice) = false ∧
    ((readText missingVoiceCtx "hello" idleState).1 =
        Except.error ("Voice model not found at: " ++
          getVoicePath missingVoiceCtx.parentDir missingVoiceCtx.configVoice) ∧
      ∀ p, Ev.spawnEv p ∉ (readText missingVoiceCtx "hello" idleState).2.2) :=
  ⟨by decide, rfl, by decide, by decide,
    (c5_missing_files_no_spawn missingVoiceCtx "hello" idleState
      "/ext/piper/linux_x86_64/piper" (by decide) rfl).2 (by decide) (by decide)⟩

theorem c7_voice_resolution_witness :
    ("aa-bb-cc" : String) ≠ "" ∧
    getVoicePath "/ext" (some "aa-bb-cc") =
      pathJoin "/ext" (pathJoin "voices" ("aa-bb-cc" ++ ".onnx")) ∧
    missingVoiceCtx.existsSync
      (getVoicePath missingVoiceCtx.parentDir missingVoiceCtx.configVoice) = false ∧
    (readText missingVoiceCtx "hello" idleState).1 ≠ Except.ok () :=
  ⟨by decide, c7_voice_resolution.2.2.1 "/ext" "aa-bb-cc" (by decide), by decide,
    c7_voice_resolution.2.2.2 missingVoiceCtx "hello" idleState (by decide)⟩

theorem c3_download_file_state_witness :
    (downloadFile "/v/f.onnx" "http://u" [⟨200, none, 3⟩] (some 7)).result =
      DlResult.resolvedR ∧
    (∃ n, 0 < n ∧
      (downloadFile "/v/f.onnx" "http://u" [⟨200, none, 3⟩] (some 7)).file = some n) :=
  ⟨rfl, (c3_download_file_state "/v/f.onnx" [⟨200, none, 3⟩] "http://u" (some 7)).1 rfl⟩

theorem c4_download_protocol_witness :
    ((302 : Nat) = 302 ∨ (302 : Nat) = 301) ∧ ("v" : String) ≠ "" ∧
    downloadFile "/d" "u" [⟨302, some "v", 5⟩] none =
      { downloadFile "/d" "v" [] (some 0) with
        gets := "u" :: (downloadFile "/d" "v" [] (some 0)).gets } :=
  ⟨Or.inl rfl, by decide,
    c4_download_protocol.1 "/d" "u" "v" 302 5 [] none (Or.inl rfl) (by decide)⟩

theorem c6_parse_example_witness :
    parseLangLine ("not a voices line" : String).data = none ∧
    parseVoiceLine ("not a voices line" : String).data = none ∧
    parseQualityLine ("not a voices line" : String).data = none ∧
    parseStep ⟨[], none, none⟩ "not a voices line" = ⟨[], none, none⟩ :=
  ⟨by decide, by decide, by decide,
    c6_parse_example.2 ⟨[], none, none⟩ "not a voices line"
      (by decide) (by decide) (by decide)⟩

theorem c9_voice_id_injective_witness :
    '-' ∉ ("en_US" : String).data ∧ '-' ∉ ("amy" : String).data ∧
    '-' ∉ ("medium" : String).data ∧
    mkVoiceId "en_US" "amy" "medium" = mkVoiceId "en_US" "amy" "medium" ∧
    (("en_US" : String) = "en_US" ∧ ("amy" : String) = "amy" ∧
      ("medium" : String) = "medium") :=
  ⟨by decide, by decide, by decide, rfl,
    c9_voice_id_injective "en_US" "amy" "medium" "en_US" "amy" "medium"
      (by decide) (by decide) (by decide) (by decide) (by decide) (by decide) rfl⟩

theorem c10_label_listing_witness :
    '-' ∈ ("en_US-amy-medium" : String).data ∧
    (getVoiceLabel "en_US-amy-medium").isSome = true ∧
    '-' ∉ ("badvoice" : String).data ∧ getVoiceLabel "badvoice" = none ∧
    (∃ v ∈ ["en_US-amy-medium", "badvoice"], '-' ∉ v.data) ∧
    buildVoiceItems ["en_US-amy-medium", "badvoice"] = none :=
  ⟨by decide, c10_label_listing.1 "en_US-amy-medium" (by decide), by decide,
    c10_label_listing.2.1 "badvoice" (by decide),
    ⟨"badvoice", by simp, by decide⟩,
    c10_label_listing.2.2 ["en_US-amy-medium", "badvoice"]
      ⟨"badvoice", by simp, by decide⟩⟩
